import Mathlib

/-!
Shallow embedding of the Gentoo installer orchestration core
(src/install.py) and proofs about the frozen claims.

The embedding follows the source function by function:
* `runCmd` models the command executor `run_cmd` (install.py lines 24-33);
* `InstallState` models the process-wide mutable globals
  (`USE_LVM`, `DEVICES`, `INIT_SYSTEM`, lines 14-22);
* `prompt_device_paths`, `setup_luks_lvm`, `stage3_select`,
  `select_stage3_file`, `create_filesystems`, `mount_filesystems`
  model the state effects / external-command lists of the
  corresponding stage procedures;
* `check_portage_tmpdir` models the disk-readiness check
  (lines 737-781) over an abstract view of the filesystem;
* `main_run` models the `main` pipeline (lines 853-892): given all
  operator answers, it produces the final installation state and the
  ordered list of stage-procedure invocations.  Command failures and
  operator aborts are not modelled here (each `run_cmd` call either
  succeeds or the operator chooses to continue); the per-command
  failure policy is modelled separately by `run_cmd`.
-/

namespace GentooInstall

/-- Init-system enumeration: the two values `INIT_SYSTEM` can be set to. -/
inductive InitSystem
  | systemd
  | openrc
deriving DecidableEq

/-- The `DEVICES` global: device role to device path, empty string meaning
"not provisioned" (install.py lines 15-20). -/
structure Devices where
  efi : String
  root : String
  home : String
  swap : String
deriving DecidableEq

/-- The mutable installation state: `USE_LVM`, `DEVICES`, `INIT_SYSTEM`
(install.py lines 14-22; `INIT_SYSTEM = None` initially). -/
structure InstallState where
  useLvm : Bool
  devices : Devices
  initSystem : Option InitSystem
deriving DecidableEq

/-- Initial state at process start: `USE_LVM = False`, all device roles
empty, `INIT_SYSTEM = None`. -/
def initialState : InstallState :=
  ⟨false, ⟨"", "", "", ""⟩, none⟩

/-- Result of one external invocation: either the process is still running
with a success flag for the command, or the whole process exited with the
given status (`sys.exit(1)` in install.py line 32). -/
inductive CmdResult
  | completed (success : Bool)
  | exited (code : Nat)
deriving DecidableEq

/-- Outcome of one `run_cmd` call: its result, whether the operator was
prompted with the continue/abort question, and how many times the external
command was launched. -/
structure RunCmdOutcome where
  result : CmdResult
  prompted : Bool
  invocations : Nat
deriving DecidableEq

/-- Model of `run_cmd(cmd, check=True, ...)` (install.py lines 24-33).
`subprocess.run(..., check=check)` raises only when `check` is true and the
command fails; the `except` branch prints the error, asks
`yesno("Continue anyway?")`, exits with status 1 on "no" and returns the
failure object on "yes".  With `check=False` a failing command returns its
(unsuccessful) result object silently.  The command is launched exactly
once on every path (no retry). -/
def runCmd (check cmdSucceeds continueAnyway : Bool) : RunCmdOutcome :=
  if cmdSucceeds then
    ⟨CmdResult.completed true, false, 1⟩
  else if check then
    if continueAnyway then ⟨CmdResult.completed false, true, 1⟩
    else ⟨CmdResult.exited 1, true, 1⟩
  else
    ⟨CmdResult.completed false, false, 1⟩

/-- Whitespace test used by Python `str.strip` for the characters that can
realistically occur in an interactive answer. -/
def isSpaceChar (c : Char) : Bool :=
  c = ' ' || c = '\t' || c = '\n' || c = '\r'

/-- Model of Python `str.strip()`: drop whitespace from both ends. -/
def strip (s : String) : String :=
  String.mk (((s.data.dropWhile isSpaceChar).reverse.dropWhile isSpaceChar).reverse)

/-- Model of the Python idiom `input(...).strip() or default`: the stripped
text, or the default when the stripped text is empty. -/
def defaultOr (raw dflt : String) : String :=
  if strip raw = "" then dflt else strip raw

/-- State effect of `prompt_device_paths` (install.py lines 53-64): the four
role entries are assigned from the operator's (stripped) inputs; `home` and
`swap` are set to the entered path only when the operator answers yes to
the corresponding question, and cleared otherwise. -/
def prompt_device_paths (s : InstallState) (efiIn rootIn : String)
    (hasHome : Bool) (homeIn : String) (hasSwap : Bool) (swapIn : String) :
    InstallState :=
  { s with devices :=
      { efi := strip efiIn
        root := strip rootIn
        home := if hasHome then strip homeIn else ""
        swap := if hasSwap then strip swapIn else "" } }

/-- State effect of `setup_luks_lvm` (install.py lines 128-152).  Declining
the opt-in question sets `USE_LVM = False` and returns with no other state
change.  Accepting sets `USE_LVM = True`, asks for the swap logical-volume
size (`input(...).strip() or "4G"`), assigns `swap` to `/dev/vg0/swap` when
that size differs from `"0"` and to `""` otherwise, and overwrites `root`
and `home` with `/dev/vg0/root` and `/dev/vg0/home`.  The external
cryptsetup/pvcreate/vgcreate/lvcreate commands only act outside the state
and are omitted here. -/
def setup_luks_lvm (s : InstallState) (enable : Bool) (swapSizeRaw : String) :
    InstallState :=
  if !enable then
    { s with useLvm := false }
  else
    let swapSize := defaultOr swapSizeRaw "4G"
    { s with
      useLvm := true
      devices :=
        { s.devices with
          root := "/dev/vg0/root"
          home := "/dev/vg0/home"
          swap := if swapSize ≠ "0" then "/dev/vg0/swap" else "" } }

/-- One row of the four-way bootstrap-variant table: listing URL, tarball
name stem, and the init system recorded in `INIT_SYSTEM`. -/
structure Stage3Selection where
  url : String
  stem : String
  init : InitSystem
deriving DecidableEq

/-- The nested `if choice == ...` chain of `install_stage3`
(install.py lines 291-313): "1" and the final else-branch select the
systemd row, "2" the openrc row, "3" systemd desktop, "4" openrc desktop. -/
def stage3_variants (choice : String) : Stage3Selection :=
  if choice = "1" then
    ⟨"https://distfiles.gentoo.org/releases/amd64/autobuilds/current-stage3-amd64-systemd/",
     "stage3-amd64-systemd-", InitSystem.systemd⟩
  else if choice = "2" then
    ⟨"https://distfiles.gentoo.org/releases/amd64/autobuilds/current-stage3-amd64-openrc/",
     "stage3-amd64-openrc-", InitSystem.openrc⟩
  else if choice = "3" then
    ⟨"https://distfiles.gentoo.org/releases/amd64/autobuilds/current-stage3-amd64-systemd-desktop/",
     "stage3-amd64-systemd-desktop-", InitSystem.systemd⟩
  else if choice = "4" then
    ⟨"https://distfiles.gentoo.org/releases/amd64/autobuilds/current-stage3-amd64-openrc-desktop/",
     "stage3-amd64-openrc-desktop-", InitSystem.openrc⟩
  else
    ⟨"https://distfiles.gentoo.org/releases/amd64/autobuilds/current-stage3-amd64-systemd/",
     "stage3-amd64-systemd-", InitSystem.systemd⟩

/-- Variant selection from the raw operator input:
`choice = input(...).strip() or "1"` (install.py line 290) followed by the
variant table. -/
def stage3_select (raw : String) : Stage3Selection :=
  stage3_variants (defaultOr raw "1")

/-- Artifact selection of `install_stage3` (install.py lines 320-325):
`matches = re.findall(...)`; on an empty match list the stage returns with
an error, otherwise it uses `matches[-1]`, the final element in listing
order. -/
def select_stage3_file (ms : List String) : Option String :=
  if ms = [] then none else ms.getLast?

/-- The path checked by `check_portage_tmpdir` (install.py line 739);
`os.path.abspath` leaves this absolute path unchanged. -/
def tmpdirPath : String := "/mnt/gentoo/var/tmp"

/-- The volatile filesystem kinds rejected by the check
(install.py line 767). -/
def volatileFs (t : String) : Bool :=
  t = "tmpfs" || t = "overlay" || t = "aufs" || t = "ramfs"

/-- Model of Python `str.startswith`: the second string is a prefix of the
first. -/
def strStartsWith (s p : String) : Bool :=
  List.isPrefixOf p.data s.data

/-- The `/proc/mounts` scan of `check_portage_tmpdir` (install.py lines
759-770): rows are (mount point, filesystem type) pairs, visited in file
order; the first row whose mount point is a string prefix of the checked
path and whose type is volatile makes the check exit. -/
def firstVolatileMount (path : String) : List (String × String) → Option String
  | [] => none
  | (mp, fs) :: rest =>
      if strStartsWith path mp && volatileFs fs then some fs
      else firstVolatileMount path rest

/-- The 10 GiB free-space threshold in bytes.  The source computes
`statvfs.f_frsize * statvfs.f_bavail / (1024**3) < 10` in floating point;
division of a nonnegative integer by the power of two `1024**3` is exact in
binary floating point for every value below 2^53 and far above the
threshold otherwise, so the comparison is equivalent to
`bytes < 10 * 1024^3` over the integers. -/
def gib10 : Nat := 10 * 1024 ^ 3

/-- Outcome of the disk-readiness check: `ok`, or the first failing check.
Every non-`ok` outcome is a direct `sys.exit(1)` in the source; no
continue/abort question exists on any path of `check_portage_tmpdir`. -/
inductive GuardOutcome
  | ok
  | errCreate
  | errNotDir
  | errSymlink
  | errVolatile (fs : String)
  | errSpace
deriving DecidableEq

/-- Whether a guard outcome terminates the process. -/
def GuardOutcome.fatal : GuardOutcome → Bool
  | .ok => false
  | _ => true

/-- Abstract view of the filesystem facts `check_portage_tmpdir` inspects:
whether the path exists, whether `os.makedirs` would succeed when it does
not, whether the path (after the creation attempt) is a directory, whether
it is a symlink, the parsed `/proc/mounts` rows, and
`f_frsize * f_bavail` in bytes. -/
structure TmpdirEnv where
  pathExists : Bool
  createOk : Bool
  isDir : Bool
  isSymlink : Bool
  mounts : List (String × String)
  freeBytes : Nat
deriving DecidableEq

/-- Model of `check_portage_tmpdir` (install.py lines 737-781), checks in
source order: missing and uncreatable path; not a directory; symlink;
volatile backing filesystem found in the `/proc/mounts` scan; free space
below 10 GiB.  Each failure exits immediately; a scan that matches no row
only warns and proceeds to the space check. -/
def check_portage_tmpdir (env : TmpdirEnv) : GuardOutcome :=
  if !env.pathExists && !env.createOk then GuardOutcome.errCreate
  else if !env.isDir then GuardOutcome.errNotDir
  else if env.isSymlink then GuardOutcome.errSymlink
  else
    match firstVolatileMount tmpdirPath env.mounts with
    | some fs => GuardOutcome.errVolatile fs
    | none =>
        if env.freeBytes < gib10 then GuardOutcome.errSpace
        else GuardOutcome.ok

/-- External commands issued by `create_filesystems` (install.py lines
154-165): `mkfs.vfat` on the efi entry unconditionally, `mkfs.ext4` on root
only when root is non-empty (otherwise the stage only logs an error for the
root step), `mkfs.ext4` on home and `mkswap` on swap when those entries are
non-empty. -/
def create_filesystems (d : Devices) : List String :=
  ["mkfs.vfat -F32 " ++ d.efi] ++
  (if d.root ≠ "" then ["mkfs.ext4 " ++ d.root] else []) ++
  (if d.home ≠ "" then ["mkfs.ext4 " ++ d.home] else []) ++
  (if d.swap ≠ "" then ["mkswap " ++ d.swap] else [])

/-- External commands issued by `mount_filesystems` (install.py lines
167-178): root and efi are mounted unconditionally, home and swap only when
non-empty. -/
def mount_filesystems (d : Devices) : List String :=
  ["mkdir -p /mnt/gentoo",
   "mount " ++ d.root ++ " /mnt/gentoo",
   "mkdir -p /mnt/gentoo/boot",
   "mount " ++ d.efi ++ " /mnt/gentoo/boot"] ++
  (if d.home ≠ "" then
    ["mkdir -p /mnt/gentoo/home", "mount " ++ d.home ++ " /mnt/gentoo/home"]
   else []) ++
  (if d.swap ≠ "" then ["swapon " ++ d.swap] else [])

/-- All operator decisions consumed by `main` (install.py lines 853-892)
and by the state-mutating stage procedures it calls.  Every `...Ans` field
answers the corresponding `yesno` gate in `main`; the string fields are the
free-text inputs of `prompt_device_paths`, `setup_luks_lvm` and
`install_stage3`. -/
structure OperatorInput where
  partitionDiskAns : Bool
  efiDev : String
  rootDev : String
  hasHome : Bool
  homeDev : String
  hasSwap : Bool
  swapDev : String
  setupLuksAns : Bool
  luksEnable : Bool
  luksSwapSize : String
  createFsAns : Bool
  mountFsAns : Bool
  setTimeAns : Bool
  installStage3Ans : Bool
  stage3Choice : String
  configureMakeConfAns : Bool
  selectMirrorsAns : Bool
  configureReposAns : Bool
  copyDnsAns : Bool
  mountPseudoAns : Bool
  chrootAns : Bool
  emergeSyncAns : Bool
  selectProfileAns : Bool
  useFlagsAns : Bool
  cpuFlagsAns : Bool
  updateWorldAns : Bool
  baseSystemAns : Bool
  installKernelAns : Bool
  configureLvmAns : Bool
  fstabAns : Bool
  mtabAns : Bool
  bootloaderAns : Bool
  enableLvm2Ans : Bool
  rootPasswordAns : Bool
  addUserAns : Bool
  networkAns : Bool
  localeAns : Bool
  timeAns : Bool
  postInstallAns : Bool
deriving DecidableEq

/-- Trace fragment for one `if yesno(...): stage()` gate in `main`: the
stage name when the answer is yes, nothing otherwise. -/
def gated (b : Bool) (name : String) : List String :=
  if b then [name] else []

/-- Model of `main` (install.py lines 853-892): the final installation
state together with the ordered list of routine invocations.  Only
`prompt_device_paths`, `setup_luks_lvm` and `install_stage3` mutate the
installation state in the source; every other stage acts externally.
`install_stage3` assigns `INIT_SYSTEM` from the variant choice before its
download logic runs.  The `configure_lvm` gate is
`if USE_LVM and yesno("Configure LVM?")` (line 881), so it consults the
state built earlier in the same run.  Command failures and operator aborts
are not modelled at this level (see `runCmd` for the per-command policy);
`require_root` is assumed satisfied. -/
def main_run (inp : OperatorInput) : InstallState × List String :=
  let s1 := prompt_device_paths initialState inp.efiDev inp.rootDev
    inp.hasHome inp.homeDev inp.hasSwap inp.swapDev
  let s2 := if inp.setupLuksAns then
      setup_luks_lvm s1 inp.luksEnable inp.luksSwapSize
    else s1
  let s3 := if inp.installStage3Ans then
      { s2 with initSystem := some (stage3_select inp.stage3Choice).init }
    else s2
  (s3,
    "remount_tmpfs_if_needed" ::
    (gated inp.partitionDiskAns "partition_disk" ++
     ["prompt_device_paths"] ++
     gated inp.setupLuksAns "setup_luks_lvm" ++
     gated inp.createFsAns "create_filesystems" ++
     gated inp.mountFsAns "mount_filesystems" ++
     gated inp.setTimeAns "set_time" ++
     gated inp.installStage3Ans "install_stage3" ++
     ["setup_binpkg"] ++
     gated inp.configureMakeConfAns "configure_make_conf" ++
     gated inp.selectMirrorsAns "select_mirrors" ++
     gated inp.configureReposAns "configure_repos" ++
     gated inp.copyDnsAns "copy_dns" ++
     gated inp.mountPseudoAns "mount_pseudo" ++
     ["remount_tmpfs_if_needed"] ++
     gated inp.chrootAns "chroot_env" ++
     gated inp.emergeSyncAns "emerge_sync" ++
     gated inp.selectProfileAns "select_profile" ++
     gated inp.useFlagsAns "configure_use_flags" ++
     gated inp.cpuFlagsAns "configure_cpu_flags" ++
     gated inp.updateWorldAns "update_world" ++
     gated inp.baseSystemAns "configure_base_system" ++
     gated inp.installKernelAns "install_kernel" ++
     gated (s3.useLvm && inp.configureLvmAns) "configure_lvm" ++
     gated inp.fstabAns "configure_fstab" ++
     gated inp.mtabAns "configure_mtab" ++
     gated inp.bootloaderAns "install_bootloader" ++
     gated inp.enableLvm2Ans "enable_lvm2" ++
     gated inp.rootPasswordAns "set_root_password" ++
     gated inp.addUserAns "add_user" ++
     gated inp.networkAns "configure_network" ++
     gated inp.localeAns "configure_locale" ++
     gated inp.timeAns "configure_time" ++
     gated inp.postInstallAns "post_install"))

/-- A concrete run in which the operator opts in to every stage. -/
def allYes : OperatorInput :=
  ⟨true, "/dev/sda1", "/dev/sda2", true, "/dev/sda3", true, "/dev/sda4",
   true, true, "4G", true, true, true, true, "1",
   true, true, true, true, true, true, true, true, true, true, true,
   true, true, true, true, true, true, true, true, true, true, true,
   true, true⟩

theorem mem_gated (x n : String) (b : Bool) : x ∈ gated b n ↔ b = true ∧ x = n := by
  cases b <;> simp [gated]

theorem count_gated (b : Bool) (n x : String) :
    (gated b n).count x = if b = true ∧ x = n then 1 else 0 := by
  cases b <;> by_cases h : x = n <;> simp [gated, h]

/-- Claim C1: when the operator enables the encryption/volume-manager stage,
at its completion the root role equals `/dev/vg0/root` and the home role
equals `/dev/vg0/home` regardless of any raw partition paths collected
earlier; the swap role equals `/dev/vg0/swap` exactly when the entered swap
size differs from `"0"` and is empty exactly when it is `"0"`; hence no mix
of raw and volume-manager paths remains in root/home. -/
theorem luks_lvm_overwrites_roles (s : InstallState) (raw : String) :
    (setup_luks_lvm s true raw).devices.root = "/dev/vg0/root" ∧
    (setup_luks_lvm s true raw).devices.home = "/dev/vg0/home" ∧
    ((setup_luks_lvm s true raw).devices.swap = "" ↔ strip raw = "0") ∧
    (strip raw = "0" ∨ (setup_luks_lvm s true raw).devices.swap = "/dev/vg0/swap") := by
  unfold setup_luks_lvm defaultOr
  by_cases h0 : strip raw = "0"
  · simp [h0]
  · by_cases he : strip raw = ""
    · simp [he, h0]
    · simp [he, h0]

/-- Claim C2: a failing operation marked fatal-by-default (`check=true`)
prompts the operator; "abort" terminates the process with non-zero exit
status 1, "continue" yields a failure outcome and execution proceeds.  A
failing operation marked non-fatal (`check=false`) returns a failure
outcome silently with no prompt.  The command is launched exactly once on
every path: no automatic retry. -/
theorem run_cmd_failure_policy (cont chk succ : Bool) :
    (runCmd true false cont).prompted = true ∧
    (runCmd true false false).result = CmdResult.exited 1 ∧
    (runCmd true false true).result = CmdResult.completed false ∧
    (runCmd false false cont).prompted = false ∧
    (runCmd false false cont).result = CmdResult.completed false ∧
    (runCmd chk succ cont).invocations = 1 := by
  cases cont <;> cases chk <;> cases succ <;> simp [runCmd]

/-- Claim C3: bootstrap-variant input "1" or "3" sets the init-system
variant to systemd, "2" or "4" to openrc, and any other input (the empty
string included) selects exactly the variant-1 row, hence systemd; the
plain-vs-desktop distinction (3 vs 1, 4 vs 2) never affects the init
system. -/
theorem stage3_variant_rule (raw : String) :
    (stage3_select raw).init =
      (if strip raw = "2" ∨ strip raw = "4" then InitSystem.openrc
       else InitSystem.systemd) ∧
    (strip raw = "2" ∨ strip raw = "3" ∨ strip raw = "4" ∨
      stage3_select raw = stage3_variants "1") ∧
    (stage3_select "3").init = (stage3_select "1").init ∧
    (stage3_select "4").init = (stage3_select "2").init := by
  refine ⟨?_, ?_, by decide, by decide⟩
  · unfold stage3_select defaultOr stage3_variants
    by_cases he : strip raw = ""
    · simp [he]
    · simp [he]
      split_ifs <;> simp_all
  · unfold stage3_select defaultOr stage3_variants
    by_cases he : strip raw = ""
    · simp [he]
    · simp [he]
      split_ifs <;> simp_all

/-- Claim C10: the encryption/volume-manager stage never modifies the efi
role on any path, and when the operator declines its opt-in question it
sets `USE_LVM` to false and leaves every device role (efi, root, home,
swap) unchanged. -/
theorem luks_lvm_frame (s : InstallState) (e : Bool) (raw : String) :
    (setup_luks_lvm s e raw).devices.efi = s.devices.efi ∧
    (setup_luks_lvm s false raw).useLvm = false ∧
    (setup_luks_lvm s false raw).devices = s.devices := by
  cases e <;> simp [setup_luks_lvm]

/-- Claim C4: in every run in which volume management was never enabled —
the operator declined the LUKS/LVM stage opt-in, or declined the stage's
inner question so `USE_LVM` stayed false — `configure_lvm` is never
invoked, whatever the answer to its own "Configure LVM?" prompt (or to any
other prompt). -/
theorem configure_lvm_skipped_when_disabled (inp : OperatorInput) :
    "configure_lvm" ∉ (main_run { inp with luksEnable := false }).2 ∧
    "configure_lvm" ∉ (main_run { inp with setupLuksAns := false }).2 := by
  constructor <;>
  · cases hA : inp.setupLuksAns <;> cases hB : inp.installStage3Ans <;>
      simp [main_run, mem_gated, setup_luks_lvm, prompt_device_paths,
        initialState, hA, hB]

/-- Claim C9: the init-system variant is write-once per run: when the
bootstrap stage runs it is assigned the value determined by the variant
choice and the final state still carries exactly that value (no later stage
changes it); when the bootstrap stage is skipped it remains unset; and the
other state-mutating stage procedures (`setup_luks_lvm`,
`prompt_device_paths`) never touch it. -/
theorem init_system_write_once (inp : OperatorInput) (s : InstallState)
    (e : Bool) (raw efiIn rootIn homeIn swapIn : String) (hh hs : Bool) :
    (main_run { inp with installStage3Ans := true }).1.initSystem
      = some (stage3_select inp.stage3Choice).init ∧
    (main_run { inp with installStage3Ans := false }).1.initSystem = none ∧
    (setup_luks_lvm s e raw).initSystem = s.initSystem ∧
    (prompt_device_paths s efiIn rootIn hh homeIn hs swapIn).initSystem
      = s.initSystem := by
  refine ⟨?_, ?_, ?_, rfl⟩
  · simp [main_run]
  · cases hA : inp.setupLuksAns <;> cases hB : inp.luksEnable <;>
      simp [main_run, setup_luks_lvm, prompt_device_paths, initialState, hA, hB]
  · cases e <;> simp [setup_luks_lvm]

/-- Claim C5 counterexample: in a concrete run in which the operator opts
in to every stage, the routine executed at pipeline entry is
`remount_tmpfs_if_needed`, and `check_portage_tmpdir` — the routine that
performs the exists/volatile/free-space checks and exits on failure — is
never invoked by the pipeline at all.  This refutes the claim that the
Disk-Readiness Guard runs at pipeline entry and again before the heaviest
stage. -/
theorem guard_not_invoked_at_entry :
    (main_run allYes).2.head? = some "remount_tmpfs_if_needed" ∧
    "check_portage_tmpdir" ∉ (main_run allYes).2 := by
  constructor
  · rfl
  · decide

theorem firstVolatileMount_mem (p mp t : String) (ms : List (String × String))
    (hmem : (mp, t) ∈ ms) (hpre : strStartsWith p mp = true)
    (hvol : volatileFs t = true) :
    ∃ fs, firstVolatileMount p ms = some fs ∧ volatileFs fs = true := by
  induction ms with
  | nil => simp at hmem
  | cons hd tl ih =>
      obtain ⟨mp', t'⟩ := hd
      by_cases h : (strStartsWith p mp' && volatileFs t') = true
      · refine ⟨t', ?_, (Bool.and_eq_true _ _ |>.mp h).2⟩
        simp [firstVolatileMount, h]
      · rcases List.mem_cons.mp hmem with heq | htl
        · exfalso
          apply h
          rw [Prod.mk.injEq] at heq
          rw [← heq.1, ← heq.2, hpre, hvol]
          rfl
        · obtain ⟨fs, hfs, hfsv⟩ := ih htl
          exact ⟨fs, by simp [firstVolatileMount, h, hfs], hfsv⟩

/-- Claim C5 amended: the routine that runs at pipeline entry and again
immediately before the chroot/build stage (twice per run) is the tmpfs
remount helper `remount_tmpfs_if_needed`, not the readiness check;
`check_portage_tmpdir` itself is never invoked by the pipeline (a
separately written copy of it runs only inside the chroot, through a shell
command of the chroot stage).  The readiness check does perform its checks
in the order: path missing and uncreatable, then not-a-directory, then
symlink, then volatile backing filesystem (which preempts the space check),
then the 10 GiB free-space minimum; and each of its outcomes is either ok
or process-fatal — the function offers no continue/abort decision on any
path. -/
theorem guard_schedule_and_checks (inp : OperatorInput) (pe co d sy : Bool)
    (ms : List (String × String)) (fb : Nat) :
    (main_run inp).2.head? = some "remount_tmpfs_if_needed" ∧
    "check_portage_tmpdir" ∉ (main_run inp).2 ∧
    (main_run inp).2.count "remount_tmpfs_if_needed" = 2 ∧
    check_portage_tmpdir ⟨false, false, d, sy, ms, fb⟩ = GuardOutcome.errCreate ∧
    check_portage_tmpdir ⟨true, co, false, sy, ms, fb⟩ = GuardOutcome.errNotDir ∧
    check_portage_tmpdir ⟨true, co, true, true, ms, fb⟩ = GuardOutcome.errSymlink ∧
    check_portage_tmpdir ⟨true, co, true, false, ("/", "tmpfs") :: ms, fb⟩
      = GuardOutcome.errVolatile "tmpfs" ∧
    ((check_portage_tmpdir ⟨pe, co, d, sy, ms, fb⟩).fatal = true ∨
      check_portage_tmpdir ⟨pe, co, d, sy, ms, fb⟩ = GuardOutcome.ok) := by
  refine ⟨rfl, ?_, ?_, by simp [check_portage_tmpdir], by simp [check_portage_tmpdir],
    by simp [check_portage_tmpdir], ?_, ?_⟩
  · simp [main_run, mem_gated]
  · simp [main_run, count_gated, List.count_cons, List.count_append]
  · have h1 : (strStartsWith tmpdirPath "/" && volatileFs "tmpfs") = true := by decide
    simp [check_portage_tmpdir, firstVolatileMount, h1]
  · rcases h : check_portage_tmpdir ⟨pe, co, d, sy, ms, fb⟩ <;>
      simp [GuardOutcome.fatal]

/-- Claim C6: for a path that exists, is a directory and is not a symlink,
`check_portage_tmpdir` exits (fatal outcome) whenever some `/proc/mounts`
row whose mount point prefixes the path carries a volatile filesystem type
(tmpfs, overlay, aufs or ramfs), and on a mount table with no such volatile
row it returns ok exactly when `f_frsize * f_bavail` is at least 10 GiB: at
exactly 10 GiB it is ok, and at 10 GiB minus one byte it reports the space
error. -/
theorem verify_outcomes (co : Bool) (ms nvs : List (String × String)) (fb : Nat)
    (mp t : String)
    (hmem : (mp, t) ∈ ms) (hpre : strStartsWith tmpdirPath mp = true)
    (hvol : volatileFs t = true)
    (hnv : firstVolatileMount tmpdirPath nvs = none) :
    (check_portage_tmpdir ⟨true, co, true, false, ms, fb⟩).fatal = true ∧
    (check_portage_tmpdir ⟨true, co, true, false, nvs, fb⟩ = GuardOutcome.ok
      ↔ gib10 ≤ fb) ∧
    check_portage_tmpdir ⟨true, co, true, false, nvs, gib10⟩ = GuardOutcome.ok ∧
    check_portage_tmpdir ⟨true, co, true, false, nvs, gib10 - 1⟩
      = GuardOutcome.errSpace := by
  obtain ⟨fs, hfs, hfsv⟩ := firstVolatileMount_mem tmpdirPath mp t ms hmem hpre hvol
  have hlt : gib10 - 1 < gib10 := by decide
  refine ⟨?_, ?_, ?_, ?_⟩
  · simp [check_portage_tmpdir, hfs, GuardOutcome.fatal]
  · have hform : check_portage_tmpdir ⟨true, co, true, false, nvs, fb⟩
        = if fb < gib10 then GuardOutcome.errSpace else GuardOutcome.ok := by
      simp [check_portage_tmpdir, hnv]
    rw [hform]
    by_cases h : fb < gib10
    · rw [if_pos h]
      simp
      omega
    · rw [if_neg h]
      simp
      omega
  · simp [check_portage_tmpdir, hnv]
  · simp [check_portage_tmpdir, hnv, hlt]

/-- Witness for claim C6 at concrete mount tables and the two boundary
free-space values. -/
theorem verify_outcomes_witness :
    (check_portage_tmpdir ⟨true, true, true, false, [("/", "tmpfs")], gib10⟩).fatal
      = true ∧
    check_portage_tmpdir ⟨true, true, true, false, [("/", "ext4")], gib10⟩
      = GuardOutcome.ok ∧
    check_portage_tmpdir ⟨true, true, true, false, [("/", "ext4")], gib10 - 1⟩
      = GuardOutcome.errSpace := by
  have h := verify_outcomes true [("/", "tmpfs")] [("/", "ext4")] gib10 "/" "tmpfs"
    (by decide) (by decide) (by decide) (by decide)
  exact ⟨h.1, h.2.2.1, h.2.2.2⟩

/-- Claim C7 counterexample: with the efi and root roles both empty, the
filesystem-creation stage still performs external operations — it runs
`mkfs.vfat` with the empty efi path and formats a provisioned home — and
the mount stage likewise still issues its commands; this refutes the claim
that such a stage invocation hard-stops and performs none of its external
operations. -/
theorem fs_stages_run_with_empty_roles :
    create_filesystems ⟨"", "", "/dev/sda3", ""⟩ ≠ [] ∧
    "mkfs.ext4 /dev/sda3" ∈ create_filesystems ⟨"", "", "/dev/sda3", ""⟩ ∧
    mount_filesystems ⟨"", "", "", ""⟩ ≠ [] := by
  refine ⟨by decide, by decide, by decide⟩

/-- Claim C7 amended: the filesystem-creation and mount stages do not
guard on the efi or root roles.  With an empty root, `create_filesystems`
still formats efi (even with an empty path) and any provisioned home/swap,
omitting — with only a log line — just the root format; `mount_filesystems`
issues its root and efi mounts unconditionally whatever the role values;
and the pipeline continues past these stages in every run (the
unconditional `setup_binpkg` step that follows them is always reached). -/
theorem fs_stages_partial_guard (efiP homeP swapP : String) (d : Devices)
    (inp : OperatorInput) :
    create_filesystems ⟨efiP, "", homeP, swapP⟩ =
      ("mkfs.vfat -F32 " ++ efiP) ::
        ((if homeP ≠ "" then ["mkfs.ext4 " ++ homeP] else []) ++
         (if swapP ≠ "" then ["mkswap " ++ swapP] else [])) ∧
    ("mount " ++ d.root ++ " /mnt/gentoo") ∈ mount_filesystems d ∧
    ("mount " ++ d.efi ++ " /mnt/gentoo/boot") ∈ mount_filesystems d ∧
    "setup_binpkg" ∈ (main_run inp).2 := by
  refine ⟨by simp [create_filesystems], by simp [mount_filesystems],
    by simp [mount_filesystems], ?_⟩
  simp [main_run, mem_gated]

/-- Claim C8 counterexample: on a listing whose matches appear in the
order b-file, a-file, the stage selects the a-file — the final match in
listing order — although the b-file is strictly greater in string order;
so the selection is not the lexicographic maximum. -/
theorem stage3_pick_not_lex_max :
    select_stage3_file ["stage3-b.tar.xz", "stage3-a.tar.xz"]
      = some "stage3-a.tar.xz" ∧
    ("stage3-a.tar.xz" : String) < "stage3-b.tar.xz" := by
  constructor
  · rfl
  · rw [String.lt_iff_toList_lt]
    decide

/-- Claim C8 amended: for every non-empty match list the bootstrap-image
stage selects the positionally last match (`matches[-1]`, the final element
in listing order); this coincides with the lexicographically-last filename
only when the listing happens to be sorted. -/
theorem stage3_picks_positionally_last (l : List String) (x : String) :
    select_stage3_file (l ++ [x]) = some x := by
  simp [select_stage3_file]
